import Mathlib

/-!
Shallow embedding of the rooftop-solar detection pipeline of
src/lib/aiDetection.ts together with proofs of its specification claims.
JS numbers are modelled as rationals, Math.floor and Math.round as
integer-valued floors, and the stream of Math.random draws as an explicit
record of rationals in [0, 1).
-/

namespace SolarVerify

/-- Models JS Math.floor on a rational input. -/
def jsFloor (q : ℚ) : ℤ := ⌊q⌋

/-- Models JS Math.round, which rounds half toward positive infinity. -/
def jsRound (q : ℚ) : ℤ := ⌊q + 1/2⌋

/-- Models the source idiom Math.round(q * 100) / 100 (two-decimal rounding). -/
def round2 (q : ℚ) : ℚ := (jsRound (q * 100) : ℚ) / 100

/-- Models the source idiom Math.round(q * 10) / 10 (one-decimal rounding). -/
def round1 (q : ℚ) : ℚ := (jsRound (q * 10) : ℚ) / 10

/-- Models Math.ceil(Math.sqrt n) on a natural number (exact for every
panel count the engine produces). -/
def ceilSqrt (n : ℕ) : ℕ :=
  if Nat.sqrt n * Nat.sqrt n = n then Nat.sqrt n else Nat.sqrt n + 1

/-- One group of per-box Math.random draws used by generateMockBboxString:
the x, y, width and height jitters and the per-box confidence draw. -/
structure BoxDraw where
  jx : ℚ
  jy : ℚ
  jw : ℚ
  jh : ℚ
  jc : ℚ

/-- The full stream of Math.random draws consumed by one call of
runSolarDetection, in consumption order: presence, confidence, panel count,
the 50/50 qc tie-break, the six grid parameters of generateMockBboxString,
the per-box draws, and the simulated processing delay. -/
structure Rand where
  presence : ℚ
  conf : ℚ
  panels : ℚ
  tie : ℚ
  sx : ℚ
  sy : ℚ
  pw : ℚ
  ph : ℚ
  gx : ℚ
  gy : ℚ
  box : ℕ → BoxDraw
  delay : ℚ

/-- A draw of Math.random lies in the half-open unit interval. -/
def IsDraw (q : ℚ) : Prop := 0 ≤ q ∧ q < 1

/-- Validity of one per-box draw group. -/
def BoxDraw.Valid (b : BoxDraw) : Prop :=
  IsDraw b.jx ∧ IsDraw b.jy ∧ IsDraw b.jw ∧ IsDraw b.jh ∧ IsDraw b.jc

/-- Validity of the whole draw stream. -/
def Rand.Valid (r : Rand) : Prop :=
  IsDraw r.presence ∧ IsDraw r.conf ∧ IsDraw r.panels ∧ IsDraw r.tie ∧
  IsDraw r.sx ∧ IsDraw r.sy ∧ IsDraw r.pw ∧ IsDraw r.ph ∧
  IsDraw r.gx ∧ IsDraw r.gy ∧ (∀ k, (r.box k).Valid) ∧ IsDraw r.delay

/-- The qc_status enumeration of the DetectionResult interface. -/
inductive QcStatus where
  | VERIFIABLE : QcStatus
  | NOT_VERIFIABLE : QcStatus
deriving DecidableEq, Repr

/-- The DetectionResult interface of src/lib/aiDetection.ts; the
image_metadata object is flattened into its two string fields. -/
structure DetectionResult where
  sample_id : String
  lat : ℚ
  lon : ℚ
  has_solar : Bool
  confidence : ℚ
  panel_count_est : ℕ
  pv_area_sqm_est : ℚ
  capacity_kw_est : ℚ
  qc_status : QcStatus
  qc_notes : List String
  bbox_or_mask : String
  image_source : String
  capture_date : String
  processing_time_ms : ℤ

/-- The quality-control branch of runSolarDetection (source lines 45-63):
given the confidence value it compares and the tie-break draw, it returns
the qc status together with the notes pushed by the taken branch. -/
def qcEval (confidence : ℚ) (tie : ℚ) : QcStatus × List String :=
  if confidence > 85/100 then
    (QcStatus.VERIFIABLE,
      ["clear roof view", "distinct module grid detected", "mounting shadows visible"])
  else if confidence > 70/100 then
    (QcStatus.VERIFIABLE,
      ["moderate image quality", "panel array partially visible"])
  else if confidence > 50/100 then
    ((if tie > 50/100 then QcStatus.VERIFIABLE else QcStatus.NOT_VERIFIABLE),
      ["low resolution imagery", "partial occlusion detected"])
  else
    (QcStatus.NOT_VERIFIABLE,
      ["insufficient image quality", "heavy shadow/cloud cover"])

/-- Models Number.prototype.toFixed(2) for a nonnegative rational below
2^52, with ties rounded upward: the value is rounded to an integer count
of hundredths, then rendered as integer part, a dot, and two digits. -/
def toFixed2 (q : ℚ) : String :=
  let n := (jsRound (q * 100)).toNat
  Nat.repr (n / 100) ++ "." ++
    String.mk [Nat.digitChar (n % 100 / 10), Nat.digitChar (n % 10)]

/-- One synthesized bounding box before serialization: the four floored
coordinates and the already-rendered confidence string. -/
structure MockBox where
  x : ℤ
  y : ℤ
  w : ℤ
  h : ℤ
  conf : String

/-- The box built for grid cell (row, col) as the k-th emitted box of
generateMockBboxString (source lines 95-109). -/
def mkBox (r : Rand) (k row col : ℕ) : MockBox :=
  let startX : ℚ := 80 + r.sx * 100
  let startY : ℚ := 80 + r.sy * 100
  let panelWidth : ℚ := 60 + r.pw * 40
  let panelHeight : ℚ := 35 + r.ph * 25
  let gapX : ℚ := 8 + r.gx * 12
  let gapY : ℚ := 6 + r.gy * 10
  let b := r.box k
  { x := jsFloor (startX + col * (panelWidth + gapX) + (b.jx - 1/2) * 8)
    y := jsFloor (startY + row * (panelHeight + gapY) + (b.jy - 1/2) * 6)
    w := jsFloor (panelWidth + (b.jw - 1/2) * 10)
    h := jsFloor (panelHeight + (b.jh - 1/2) * 8)
    conf := toFixed2 (82/100 + b.jc * (17/100)) }

/-- Serialization of one box (source line 110). -/
def renderBox (b : MockBox) : String :=
  "[" ++ toString b.x ++ "," ++ toString b.y ++ "," ++ toString b.w ++ ","
    ++ toString b.h ++ "," ++ b.conf ++ "]"

/-- The sequence of (row, col) cells visited by the double loop of
generateMockBboxString: a row-major walk over the grid cut off after
panelCount emissions. -/
def gridWalk (gridRows gridCols panelCount : ℕ) : List (ℕ × ℕ) :=
  ((List.range gridRows).flatMap fun row =>
    (List.range gridCols).map fun col => (row, col)).take panelCount

/-- The list of serialized boxes produced by generateMockBboxString,
in emission order. -/
def generateMockBboxList (panelCount : ℕ) (r : Rand) : List String :=
  let gridCols := ceilSqrt panelCount
  let gridRows := (⌈(panelCount : ℚ) / (gridCols : ℚ)⌉).toNat
  (gridWalk gridRows gridCols panelCount).enum.map fun kc =>
    renderBox (mkBox r kc.1 kc.2.1 kc.2.2)

/-- Models JS Array.prototype.join with a separator string. -/
def joinSep (sep : String) : List String → String
  | [] => ""
  | [a] => a
  | a :: b :: as => a ++ sep ++ joinSep sep (b :: as)

/-- The function generateMockBboxString of the source (lines 89-115). -/
def generateMockBboxString (panelCount : ℕ) (r : Rand) : String :=
  joinSep ";" (generateMockBboxList panelCount r)

/-- The local hasSolar of runSolarDetection (source line 34). -/
def hasSolarOf (r : Rand) : Bool := decide (r.presence > 30/100)

/-- The local confidence of runSolarDetection (source lines 35-37),
before the two-decimal rounding applied to the output field. -/
def confidenceOf (r : Rand) : ℚ :=
  if hasSolarOf r then 75/100 + r.conf * (24/100) else 10/100 + r.conf * (30/100)

/-- The local panelCount of runSolarDetection (source line 39). -/
def panelCountOf (r : Rand) : ℕ :=
  if hasSolarOf r then (jsFloor (4 + r.panels * 20)).toNat else 0

/-- The physical constant avgPanelArea (source line 40). -/
def avgPanelArea : ℚ := 17/10

/-- The physical constant wattPerSqm (source line 42). -/
def wattPerSqm : ℚ := 180

/-- The local pvArea of runSolarDetection (source line 41). -/
def pvAreaOf (r : Rand) : ℚ := (panelCountOf r : ℚ) * avgPanelArea

/-- The local capacity of runSolarDetection (source line 43). -/
def capacityOf (r : Rand) : ℚ := pvAreaOf r * wattPerSqm / 1000

/-- The qcNotes list of runSolarDetection after the branch pushes of
lines 48-63 and the conditional push of lines 65-67. -/
def qcNotesOf (r : Rand) : List String :=
  (qcEval (confidenceOf r) r.tie).2 ++
    (if hasSolarOf r = true ∧ 10 < panelCountOf r
     then ["large installation detected"] else [])

/-- The function runSolarDetection of the source (lines 24-87); the
capture date is passed in as the ambient current date and the artificial
delay is irrelevant to the returned value. -/
def runSolarDetection (sampleId : String) (lat lon : ℚ) (today : String)
    (r : Rand) : DetectionResult :=
  { sample_id := sampleId
    lat := lat
    lon := lon
    has_solar := hasSolarOf r
    confidence := round2 (confidenceOf r)
    panel_count_est := panelCountOf r
    pv_area_sqm_est := round1 (pvAreaOf r)
    capacity_kw_est := round1 (capacityOf r)
    qc_status := (qcEval (confidenceOf r) r.tie).1
    qc_notes := qcNotesOf r
    bbox_or_mask :=
      if hasSolarOf r then generateMockBboxString (panelCountOf r) r else ""
    image_source := "Satellite/Manual Upload"
    capture_date := today
    processing_time_ms := jsFloor (2000 + r.delay * 3000) }

/-- Entry count of a bbox_or_mask string, modelled from the consumer
parseDetectionBoxes (SolarDetectionOverlay.tsx lines 24-45): an empty
string yields no entries, otherwise the string is split on semicolons
and each chunk is one entry. -/
def countEntries (s : String) : ℕ :=
  if s = "" then 0 else (s.data.splitOn ';').length

/-- A concrete valid draw stream with every draw equal to one half. -/
def rHalf : Rand where
  presence := 1/2
  conf := 1/2
  panels := 1/2
  tie := 1/2
  sx := 1/2
  sy := 1/2
  pw := 1/2
  ph := 1/2
  gx := 1/2
  gy := 1/2
  box := fun _ => ⟨1/2, 1/2, 1/2, 1/2, 1/2⟩
  delay := 1/2

/-- A valid draw stream whose presence draw is below the 0.3 cutoff. -/
def rNoSolar : Rand := { rHalf with presence := 1/10 }

/-- A valid draw stream whose confidence draw makes the unrounded
confidence exactly 0.854 and whose panel draw yields four panels. -/
def rCex : Rand := { rHalf with conf := 13/30, panels := 0 }

def IsDigitStr (l : List Char) : Prop := l ≠ [] ∧ ∀ c ∈ l, c.isDigit = true

def IsFloatStr (l : List Char) : Prop :=
  IsDigitStr l ∨ ∃ a b, l = a ++ '.' :: b ∧ IsDigitStr a ∧ IsDigitStr b

def confTail : Option (List Char) → List Char
  | some cs => ',' :: cs
  | none => []

def MatchesBoxGrammar (s : String) : Prop :=
  ∃ x y w h : List Char, ∃ copt : Option (List Char),
    IsDigitStr x ∧ IsDigitStr y ∧ IsDigitStr w ∧ IsDigitStr h ∧
    (∀ cs ∈ copt, IsFloatStr cs) ∧
    s.data = '[' :: (x ++ [','] ++ y ++ [','] ++ w ++ [','] ++ h ++
      confTail copt ++ [']'])

/-! ## Helper lemmas -/

theorem rHalf_valid : rHalf.Valid := by
  refine ⟨?_, ?_, ?_, ?_, ?_, ?_, ?_, ?_, ?_, ?_,
    fun k => ⟨?_, ?_, ?_, ?_, ?_⟩, ?_⟩ <;> constructor <;> norm_num [rHalf, IsDraw]

theorem rNoSolar_valid : rNoSolar.Valid := by
  refine ⟨?_, ?_, ?_, ?_, ?_, ?_, ?_, ?_, ?_, ?_,
    fun k => ⟨?_, ?_, ?_, ?_, ?_⟩, ?_⟩ <;> constructor <;>
    norm_num [rNoSolar, rHalf, IsDraw]

theorem rCex_valid : rCex.Valid := by
  refine ⟨?_, ?_, ?_, ?_, ?_, ?_, ?_, ?_, ?_, ?_,
    fun k => ⟨?_, ?_, ?_, ?_, ?_⟩, ?_⟩ <;> constructor <;>
    norm_num [rCex, rHalf, IsDraw]

theorem floor_half : ⌊(1/2 : ℚ)⌋ = 0 := by
  rw [Int.floor_eq_zero_iff]
  constructor <;> norm_num

theorem qcEval_notes_length (c t : ℚ) : 2 ≤ (qcEval c t).2.length := by
  unfold qcEval
  split_ifs <;> simp

theorem qcEval_notes_cases (c t : ℚ) :
    (qcEval c t).2 =
      ["clear roof view", "distinct module grid detected", "mounting shadows visible"] ∨
    (qcEval c t).2 = ["moderate image quality", "panel array partially visible"] ∨
    (qcEval c t).2 = ["low resolution imagery", "partial occlusion detected"] ∨
    (qcEval c t).2 = ["insufficient image quality", "heavy shadow/cloud cover"] := by
  unfold qcEval
  split_ifs <;> simp

theorem large_note_not_mem (c t : ℚ) :
    "large installation detected" ∉ (qcEval c t).2 := by
  rcases qcEval_notes_cases c t with h | h | h | h <;> rw [h] <;> decide

theorem round1_nat_panel (n : ℕ) :
    round1 ((n : ℚ) * avgPanelArea) = (n : ℚ) * avgPanelArea := by
  unfold round1 jsRound avgPanelArea
  have h : ((n : ℚ) * (17/10)) * 10 + 1/2 = ((17 * n : ℤ) : ℚ) + 1/2 := by
    push_cast; ring
  rw [h, Int.floor_int_add, floor_half]
  push_cast
  ring

theorem round2_lt_iff (c : ℚ) (m : ℤ)
    (hcu : ¬((m : ℚ)/100 < c ∧ c < ((m : ℚ) + 1/2)/100)) :
    ((m : ℚ)/100 < round2 c ↔ (m : ℚ)/100 < c) := by
  unfold round2 jsRound
  constructor
  · intro h
    have h1 : ((m : ℚ)) < (⌊c * 100 + 1/2⌋ : ℚ) :=
      (div_lt_div_iff_of_pos_right (by norm_num)).mp h
    have h2 : (m : ℤ) < ⌊c * 100 + 1/2⌋ := by exact_mod_cast h1
    have h3 : ((m + 1 : ℤ) : ℚ) ≤ c * 100 + 1/2 := Int.le_floor.mp (by omega)
    push_cast at h3
    linarith
  · intro h
    have hu : ((m : ℚ) + 1/2)/100 ≤ c := le_of_not_lt fun hlt => hcu ⟨h, hlt⟩
    have h3 : ((m + 1 : ℤ) : ℚ) ≤ c * 100 + 1/2 := by push_cast; linarith
    have h2 : (m + 1 : ℤ) ≤ ⌊c * 100 + 1/2⌋ := Int.le_floor.mpr h3
    have h1 : ((m : ℚ)) < (⌊c * 100 + 1/2⌋ : ℚ) := by exact_mod_cast by omega
    exact (div_lt_div_iff_of_pos_right (by norm_num)).mpr h1

theorem panelCount_bounds (u : ℚ) (h0 : 0 ≤ u) (h1 : u < 1) :
    4 ≤ jsFloor (4 + u * 20) ∧ jsFloor (4 + u * 20) ≤ 23 := by
  unfold jsFloor
  constructor
  · exact Int.le_floor.mpr (by push_cast; nlinarith)
  · have h24 : (4 + u * 20 : ℚ) < ((24 : ℤ) : ℚ) := by push_cast; nlinarith
    have := Int.floor_lt.mpr h24
    omega

theorem digitChar_isDigit (d : ℕ) (h : d < 10) :
    (Nat.digitChar d).isDigit = true := by
  interval_cases d <;> decide

theorem toDigitsCore_digits (fuel : ℕ) :
    ∀ (n : ℕ) (acc : List Char), (∀ c ∈ acc, c.isDigit = true) →
      ∀ c ∈ Nat.toDigitsCore 10 fuel n acc, c.isDigit = true := by
  induction fuel with
  | zero => intro n acc hacc; simpa [Nat.toDigitsCore] using hacc
  | succ f ih =>
    intro n acc hacc c hc
    rw [Nat.toDigitsCore] at hc
    by_cases h0 : n / 10 = 0
    · rw [if_pos h0] at hc
      rcases List.mem_cons.mp hc with hc | hc
      · exact hc ▸ digitChar_isDigit _ (Nat.mod_lt _ (by norm_num))
      · exact hacc c hc
    · rw [if_neg h0] at hc
      refine ih (n / 10) (Nat.digitChar (n % 10) :: acc) ?_ c hc
      intro d hd
      rcases List.mem_cons.mp hd with hd | hd
      · exact hd ▸ digitChar_isDigit _ (Nat.mod_lt _ (by norm_num))
      · exact hacc d hd

theorem toDigitsCore_suffix (fuel : ℕ) :
    ∀ (n : ℕ) (acc : List Char),
      ∃ l, Nat.toDigitsCore 10 fuel n acc = l ++ acc := by
  induction fuel with
  | zero => intro n acc; exact ⟨[], by simp [Nat.toDigitsCore]⟩
  | succ f ih =>
    intro n acc
    rw [Nat.toDigitsCore]
    by_cases h0 : n / 10 = 0
    · exact ⟨[Nat.digitChar (n % 10)], by rw [if_pos h0]; rfl⟩
    · rw [if_neg h0]
      obtain ⟨l, hl⟩ := ih (n / 10) (Nat.digitChar (n % 10) :: acc)
      exact ⟨l ++ [Nat.digitChar (n % 10)], by simp [hl]⟩

theorem repr_digits (n : ℕ) : IsDigitStr (Nat.repr n).data := by
  have hd : (Nat.repr n).data = Nat.toDigits 10 n := rfl
  constructor
  · rw [hd]
    unfold Nat.toDigits
    rw [Nat.toDigitsCore]
    by_cases h0 : n / 10 = 0
    · simp [h0]
    · rw [if_neg h0]
      obtain ⟨l, hl⟩ := toDigitsCore_suffix n (n / 10) [Nat.digitChar (n % 10)]
      simp [hl]
  · rw [hd]
    exact toDigitsCore_digits (n + 1) n [] (by simp)

theorem int_toString_nonneg (x : ℤ) (h : 0 ≤ x) :
    toString x = Nat.repr x.toNat := by
  cases x with
  | ofNat m => rfl
  | negSucc m => exact absurd h (by simp)

theorem toFixed2_data (q : ℚ) :
    (toFixed2 q).data =
      (Nat.repr ((jsRound (q * 100)).toNat / 100)).data ++
        '.' :: [Nat.digitChar ((jsRound (q * 100)).toNat % 100 / 10),
                Nat.digitChar ((jsRound (q * 100)).toNat % 10)] := by
  simp [toFixed2, String.data_append]

theorem toFixed2_float (q : ℚ) : IsFloatStr (toFixed2 q).data := by
  right
  refine ⟨(Nat.repr ((jsRound (q * 100)).toNat / 100)).data,
    [Nat.digitChar ((jsRound (q * 100)).toNat % 100 / 10),
     Nat.digitChar ((jsRound (q * 100)).toNat % 10)],
    toFixed2_data q, repr_digits _, ?_, ?_⟩
  · simp
  · intro c hc
    rcases List.mem_cons.mp hc with hc | hc
    · refine hc ▸ digitChar_isDigit _ ?_
      have : (jsRound (q * 100)).toNat % 100 < 100 := Nat.mod_lt _ (by norm_num)
      omega
    · rcases List.mem_cons.mp hc with hc | hc
      · exact hc ▸ digitChar_isDigit _ (Nat.mod_lt _ (by norm_num))
      · simp at hc

theorem toFixed2_chars (q : ℚ) :
    ∀ c ∈ (toFixed2 q).data, c.isDigit = true ∨ c = '.' := by
  intro c hc
  rw [toFixed2_data] at hc
  rcases List.mem_append.mp hc with hc | hc
  · exact Or.inl ((repr_digits _).2 c hc)
  · rcases List.mem_cons.mp hc with hc | hc
    · exact Or.inr hc
    · rcases List.mem_cons.mp hc with hc | hc
      · refine Or.inl (hc ▸ digitChar_isDigit _ ?_)
        have : (jsRound (q * 100)).toNat % 100 < 100 := Nat.mod_lt _ (by norm_num)
        omega
      · rcases List.mem_cons.mp hc with hc | hc
        · exact Or.inl (hc ▸ digitChar_isDigit _ (Nat.mod_lt _ (by norm_num)))
        · simp at hc

theorem renderBox_grammar (b : MockBox) (hx : 0 ≤ b.x) (hy : 0 ≤ b.y)
    (hw : 0 ≤ b.w) (hh : 0 ≤ b.h) (hc : IsFloatStr b.conf.data) :
    MatchesBoxGrammar (renderBox b) := by
  refine ⟨(toString b.x).data, (toString b.y).data, (toString b.w).data,
    (toString b.h).data, some b.conf.data, ?_, ?_, ?_, ?_, ?_, ?_⟩
  · rw [int_toString_nonneg b.x hx]; exact repr_digits _
  · rw [int_toString_nonneg b.y hy]; exact repr_digits _
  · rw [int_toString_nonneg b.w hw]; exact repr_digits _
  · rw [int_toString_nonneg b.h hh]; exact repr_digits _
  · intro cs hcs
    have h : b.conf.data = cs := by simpa using hcs
    exact h ▸ hc
  · simp [renderBox, String.data_append, confTail]

theorem mkBox_nonneg (r : Rand) (hr : r.Valid) (k row col : ℕ) :
    0 ≤ (mkBox r k row col).x ∧ 0 ≤ (mkBox r k row col).y ∧
      0 ≤ (mkBox r k row col).w ∧ 0 ≤ (mkBox r k row col).h := by
  obtain ⟨-, -, -, -, hsx, hsy, hpw, hph, hgx, hgy, hbox, -⟩ := hr
  obtain ⟨hjx, hjy, hjw, hjh, -⟩ := hbox k
  unfold mkBox jsFloor
  refine ⟨?_, ?_, ?_, ?_⟩
  · apply Int.le_floor.mpr
    push_cast
    have hcol : (0:ℚ) ≤ (col : ℚ) * ((60 + r.pw * 40) + (8 + r.gx * 12)) :=
      mul_nonneg (Nat.cast_nonneg col) (by nlinarith [hpw.1, hgx.1])
    nlinarith [hsx.1, hjx.1, hcol]
  · apply Int.le_floor.mpr
    push_cast
    have hrow : (0:ℚ) ≤ (row : ℚ) * ((35 + r.ph * 25) + (6 + r.gy * 10)) :=
      mul_nonneg (Nat.cast_nonneg row) (by nlinarith [hph.1, hgy.1])
    nlinarith [hsy.1, hjy.1, hrow]
  · apply Int.le_floor.mpr
    push_cast
    nlinarith [hpw.1, hjw.1]
  · apply Int.le_floor.mpr
    push_cast
    nlinarith [hph.1, hjh.1]

theorem generateMockBboxList_grammar (r : Rand) (hr : r.Valid) (n : ℕ) :
    ∀ s ∈ generateMockBboxList n r, MatchesBoxGrammar s := by
  intro s hs
  unfold generateMockBboxList at hs
  obtain ⟨kc, -, rfl⟩ := List.mem_map.mp hs
  obtain ⟨hx, hy, hw, hh⟩ := mkBox_nonneg r hr kc.1 kc.2.1 kc.2.2
  exact renderBox_grammar _ hx hy hw hh (toFixed2_float _)

theorem int_toString_chars (x : ℤ) :
    ∀ c ∈ (toString x).data, c.isDigit = true ∨ c = '-' := by
  intro c hc
  cases x with
  | ofNat m => exact Or.inl ((repr_digits m).2 c hc)
  | negSucc m =>
    have hd : (toString (Int.negSucc m)).data = '-' :: (Nat.repr (m+1)).data := rfl
    rw [hd] at hc
    rcases List.mem_cons.mp hc with hc | hc
    · exact Or.inr hc
    · exact Or.inl ((repr_digits (m+1)).2 c hc)

theorem renderBox_data (b : MockBox) :
    (renderBox b).data = '[' :: ((toString b.x).data ++ [','] ++
      (toString b.y).data ++ [','] ++ (toString b.w).data ++ [','] ++
      (toString b.h).data ++ [','] ++ b.conf.data ++ [']']) := by
  simp [renderBox, String.data_append]

theorem renderBox_no_semi (b : MockBox)
    (hcf : ∀ c ∈ b.conf.data, c.isDigit = true ∨ c = '.') :
    ';' ∉ (renderBox b).data := by
  rw [renderBox_data]
  intro hmem
  have hdig : ∀ x : ℤ, ';' ∉ (toString x).data := by
    intro x hx
    rcases int_toString_chars x ';' hx with h | h
    · exact absurd h (by decide)
    · exact absurd h (by decide)
  rcases List.mem_cons.mp hmem with h | h
  · exact absurd h (by decide)
  rcases List.mem_append.mp h with h | h
  · rcases List.mem_append.mp h with h | h
    · rcases List.mem_append.mp h with h | h
      · rcases List.mem_append.mp h with h | h
        · rcases List.mem_append.mp h with h | h
          · rcases List.mem_append.mp h with h | h
            · rcases List.mem_append.mp h with h | h
              · rcases List.mem_append.mp h with h | h
                · rcases List.mem_append.mp h with h | h
                  · exact hdig _ h
                  · exact absurd h (by decide)
                · exact hdig _ h
              · exact absurd h (by decide)
            · exact hdig _ h
          · exact absurd h (by decide)
        · exact hdig _ h
      · exact absurd h (by decide)
    · rcases hcf _ h with hd | hd
      · exact absurd hd (by decide)
      · exact absurd hd (by decide)
  · exact absurd h (by decide)

theorem ceilSqrt_pos (n : ℕ) (hn : 1 ≤ n) : 1 ≤ ceilSqrt n := by
  unfold ceilSqrt
  have h0 : 0 < Nat.sqrt n := Nat.sqrt_pos.mpr hn
  split_ifs <;> omega

theorem grid_cells_ge (n : ℕ) (hn : 1 ≤ n) :
    n ≤ (Int.toNat ⌈(n : ℚ) / (ceilSqrt n : ℚ)⌉) * ceilSqrt n := by
  have hC : 0 < ceilSqrt n := ceilSqrt_pos n hn
  have hCq : (0:ℚ) < (ceilSqrt n : ℚ) := by exact_mod_cast hC
  have h1 : ((n:ℚ) / (ceilSqrt n : ℚ)) ≤ (⌈(n:ℚ) / (ceilSqrt n : ℚ)⌉ : ℚ) :=
    Int.le_ceil _
  rw [div_le_iff₀ hCq] at h1
  have h3 : 0 ≤ ⌈(n:ℚ) / (ceilSqrt n : ℚ)⌉ := Int.ceil_nonneg (by positivity)
  have h4 : ((Int.toNat ⌈(n:ℚ)/(ceilSqrt n:ℚ)⌉ : ℕ) : ℚ) =
      (⌈(n:ℚ)/(ceilSqrt n:ℚ)⌉ : ℚ) := by
    exact_mod_cast Int.toNat_of_nonneg h3
  rw [← h4] at h1
  exact_mod_cast h1

theorem gridWalk_length (R C n : ℕ) :
    (gridWalk R C n).length = min n (R * C) := by
  unfold gridWalk
  rw [List.length_take]
  congr 1
  induction R with
  | zero => simp
  | succ m ih =>
    rw [List.range_succ]
    simp only [List.flatMap_append, List.length_append, ih]
    simp [Nat.succ_mul]

theorem generateMockBboxList_length (n : ℕ) (r : Rand) (hn : 1 ≤ n) :
    (generateMockBboxList n r).length = n := by
  unfold generateMockBboxList
  rw [List.length_map, List.enum_length, gridWalk_length]
  exact min_eq_left (grid_cells_ge n hn)

theorem generateMockBboxList_no_semi (n : ℕ) (r : Rand) :
    ∀ s ∈ generateMockBboxList n r, ';' ∉ s.data ∧ s.data ≠ [] := by
  intro s hs
  unfold generateMockBboxList at hs
  obtain ⟨kc, -, rfl⟩ := List.mem_map.mp hs
  refine ⟨renderBox_no_semi _ (toFixed2_chars _), ?_⟩
  rw [renderBox_data]
  simp

theorem joinSep_data (l : List String) :
    (joinSep ";" l).data = List.intercalate [';'] (l.map String.data) := by
  induction l with
  | nil => rfl
  | cons a as ih =>
    cases as with
    | nil => simp [joinSep, List.intercalate]
    | cons b bs =>
      have h2 : List.intercalate [';'] (a.data :: b.data :: (bs.map String.data)) =
          a.data ++ [';'] ++ List.intercalate [';'] (b.data :: bs.map String.data) := by
        simp [List.intercalate, List.intersperse_cons_cons]
      simp only [joinSep, String.data_append, List.map_cons] at ih ⊢
      rw [h2, ← ih]

theorem countEntries_joinSep (l : List String) (hl : l ≠ [])
    (hne : ∀ s ∈ l, s.data ≠ []) (hsemi : ∀ s ∈ l, ';' ∉ s.data) :
    countEntries (joinSep ";" l) = l.length := by
  have hsplit : (joinSep ";" l).data.splitOn ';' = l.map String.data := by
    rw [joinSep_data]
    refine List.splitOn_intercalate (l.map String.data) ';' ?_ ?_
    · intro ld hld
      obtain ⟨s, hs, rfl⟩ := List.mem_map.mp hld
      exact hsemi s hs
    · simpa using hl
  have hd : (joinSep ";" l).data ≠ [] := by
    cases l with
    | nil => exact absurd rfl hl
    | cons a as =>
      cases as with
      | nil => exact hne a (by simp)
      | cons b bs => simp [joinSep, String.data_append]
  have hs0 : joinSep ";" l ≠ "" := fun he => hd (by rw [he])
  unfold countEntries
  rw [if_neg hs0, hsplit, List.length_map]

theorem countEntries_bbox (n : ℕ) (r : Rand) (hn : 1 ≤ n) :
    countEntries (generateMockBboxString n r) = n := by
  unfold generateMockBboxString
  rw [countEntries_joinSep _ ?_ ?_ ?_]
  · exact generateMockBboxList_length n r hn
  · intro he
    have hlen := generateMockBboxList_length n r hn
    rw [he] at hlen
    simp at hlen
    omega
  · intro s hs
    exact (generateMockBboxList_no_semi n r s hs).2
  · intro s hs
    exact (generateMockBboxList_no_semi n r s hs).1

/-! ## Claim theorems -/

/-- C8: for every input, the returned sample_id, lat and lon are exactly
the input values for every outcome of the random draws. -/
theorem echo_fields (sampleId : String) (lat lon : ℚ) (today : String)
    (r : Rand) :
    (runSolarDetection sampleId lat lon today r).sample_id = sampleId ∧
    (runSolarDetection sampleId lat lon today r).lat = lat ∧
    (runSolarDetection sampleId lat lon today r).lon = lon :=
  ⟨rfl, rfl, rfl⟩

/-- C5: the quality-control thresholds behave exactly as stated at the
boundaries: confidence 0.85 falls in the moderate-image-quality bucket and
confidence 0.50 falls in the NOT_VERIFIABLE bucket with notes
insufficient image quality then heavy shadow/cloud cover. -/
theorem qc_threshold_boundaries (t : ℚ) :
    qcEval (85/100) t =
      (QcStatus.VERIFIABLE,
        ["moderate image quality", "panel array partially visible"]) ∧
    qcEval (50/100) t =
      (QcStatus.NOT_VERIFIABLE,
        ["insufficient image quality", "heavy shadow/cloud cover"]) := by
  unfold qcEval
  norm_num

/-- C10: every invocation yields at least two qc notes, even when
has_solar is false, since the quality-control evaluation runs
unconditionally and each branch pushes at least two notes. -/
theorem qc_notes_nonempty (sampleId : String) (lat lon : ℚ) (today : String)
    (r : Rand) :
    2 ≤ (runSolarDetection sampleId lat lon today r).qc_notes.length := by
  have h := qcEval_notes_length (confidenceOf r) r.tie
  simp only [runSolarDetection, qcNotesOf, List.length_append]
  omega

/-- C7: the note about a large installation appears exactly when
has_solar holds and the panel count exceeds ten, and in that case it is
the last note, independent of the qc branch taken. -/
theorem large_installation_note (sampleId : String) (lat lon : ℚ)
    (today : String) (r : Rand) :
    ("large installation detected" ∈
        (runSolarDetection sampleId lat lon today r).qc_notes ↔
      (runSolarDetection sampleId lat lon today r).has_solar = true ∧
      10 < (runSolarDetection sampleId lat lon today r).panel_count_est) ∧
    ((runSolarDetection sampleId lat lon today r).has_solar = true →
      10 < (runSolarDetection sampleId lat lon today r).panel_count_est →
      (runSolarDetection sampleId lat lon today r).qc_notes.getLast? =
        some "large installation detected") := by
  have hnm := large_note_not_mem (confidenceOf r) r.tie
  constructor
  · by_cases hc : hasSolarOf r = true ∧ 10 < panelCountOf r
    · simp [runSolarDetection, qcNotesOf, hc, hnm]
    · simp [runSolarDetection, qcNotesOf, hc, hnm]
  · intro h1 h2
    have hc : hasSolarOf r = true ∧ 10 < panelCountOf r := ⟨h1, h2⟩
    simp [runSolarDetection, qcNotesOf, hc]

/-- C7 witness: a concrete invocation with fourteen panels carries the
large-installation note as its last qc note. -/
theorem large_installation_note_witness :
    (runSolarDetection "S1" 0 0 "2026-01-01" rHalf).has_solar = true ∧
    10 < (runSolarDetection "S1" 0 0 "2026-01-01" rHalf).panel_count_est ∧
    (runSolarDetection "S1" 0 0 "2026-01-01" rHalf).qc_notes.getLast? =
      some "large installation detected" := by
  have hs : (runSolarDetection "S1" 0 0 "2026-01-01" rHalf).has_solar = true := by
    norm_num [runSolarDetection, hasSolarOf, rHalf]
  have hp : 10 < (runSolarDetection "S1" 0 0 "2026-01-01" rHalf).panel_count_est := by
    norm_num [runSolarDetection, panelCountOf, hasSolarOf, rHalf, jsFloor]
  exact ⟨hs, hp, (large_installation_note "S1" 0 0 "2026-01-01" rHalf).2 hs hp⟩

/-- C9: whenever has_solar holds and the panel draw is a unit-interval
draw, the panel count estimate is the floor of 4 plus twenty times the
draw, an integer between 4 and 23. -/
theorem panel_count_range (sampleId : String) (lat lon : ℚ) (today : String)
    (r : Rand) (h0 : 0 ≤ r.panels) (h1 : r.panels < 1)
    (hs : (runSolarDetection sampleId lat lon today r).has_solar = true) :
    ((runSolarDetection sampleId lat lon today r).panel_count_est : ℤ) =
      jsFloor (4 + r.panels * 20) ∧
    4 ≤ (runSolarDetection sampleId lat lon today r).panel_count_est ∧
    (runSolarDetection sampleId lat lon today r).panel_count_est ≤ 23 := by
  have hb := panelCount_bounds r.panels h0 h1
  have hs2 : hasSolarOf r = true := hs
  simp only [runSolarDetection, panelCountOf, hs2, if_true]
  omega

/-- C9 witness: the panel draw one half yields fourteen panels. -/
theorem panel_count_range_witness :
    (0 ≤ rHalf.panels ∧ rHalf.panels < 1 ∧
      (runSolarDetection "S1" 0 0 "2026-01-01" rHalf).has_solar = true) ∧
    (((runSolarDetection "S1" 0 0 "2026-01-01" rHalf).panel_count_est : ℤ) =
      jsFloor (4 + rHalf.panels * 20) ∧
    4 ≤ (runSolarDetection "S1" 0 0 "2026-01-01" rHalf).panel_count_est ∧
    (runSolarDetection "S1" 0 0 "2026-01-01" rHalf).panel_count_est ≤ 23) := by
  have h0 : 0 ≤ rHalf.panels := by norm_num [rHalf]
  have h1 : rHalf.panels < 1 := by norm_num [rHalf]
  have hs : (runSolarDetection "S1" 0 0 "2026-01-01" rHalf).has_solar = true := by
    norm_num [runSolarDetection, hasSolarOf, rHalf]
  exact ⟨⟨h0, h1, hs⟩, panel_count_range "S1" 0 0 "2026-01-01" rHalf h0 h1 hs⟩

/-- C2: whenever has_solar is false the panel count, area and capacity
estimates are zero and the bbox string is empty. -/
theorem no_solar_zeroes (sampleId : String) (lat lon : ℚ) (today : String)
    (r : Rand)
    (h : (runSolarDetection sampleId lat lon today r).has_solar = false) :
    (runSolarDetection sampleId lat lon today r).panel_count_est = 0 ∧
    (runSolarDetection sampleId lat lon today r).pv_area_sqm_est = 0 ∧
    (runSolarDetection sampleId lat lon today r).capacity_kw_est = 0 ∧
    (runSolarDetection sampleId lat lon today r).bbox_or_mask = "" := by
  have hs : hasSolarOf r = false := h
  refine ⟨?_, ?_, ?_, ?_⟩ <;>
    simp [runSolarDetection, panelCountOf, pvAreaOf, capacityOf, hs,
      round1, jsRound, floor_half] <;> norm_num

/-- C2 witness: a concrete invocation whose presence draw is 0.1 returns
the all-zero no-solar result. -/
theorem no_solar_zeroes_witness :
    (runSolarDetection "S1" 0 0 "2026-01-01" rNoSolar).has_solar = false ∧
    ((runSolarDetection "S1" 0 0 "2026-01-01" rNoSolar).panel_count_est = 0 ∧
    (runSolarDetection "S1" 0 0 "2026-01-01" rNoSolar).pv_area_sqm_est = 0 ∧
    (runSolarDetection "S1" 0 0 "2026-01-01" rNoSolar).capacity_kw_est = 0 ∧
    (runSolarDetection "S1" 0 0 "2026-01-01" rNoSolar).bbox_or_mask = "") := by
  have h : (runSolarDetection "S1" 0 0 "2026-01-01" rNoSolar).has_solar = false := by
    norm_num [runSolarDetection, hasSolarOf, rNoSolar, rHalf]
  exact ⟨h, no_solar_zeroes "S1" 0 0 "2026-01-01" rNoSolar h⟩

/-- C3: the area estimate equals the one-decimal rounding of the panel
count times 1.7, and the capacity estimate equals the one-decimal rounding
of that already-rounded area times 180 over 1000; in the exact rational
model the one-decimal rounding of the area is the area itself, so the
value computed by the source from the unrounded area coincides with the
value the claim derives from the rounded one. -/
theorem derived_fields_deterministic (sampleId : String) (lat lon : ℚ)
    (today : String) (r : Rand) :
    (runSolarDetection sampleId lat lon today r).pv_area_sqm_est =
      round1 (((runSolarDetection sampleId lat lon today r).panel_count_est : ℚ)
        * (17/10)) ∧
    (runSolarDetection sampleId lat lon today r).capacity_kw_est =
      round1 (round1
        (((runSolarDetection sampleId lat lon today r).panel_count_est : ℚ)
          * (17/10)) * 180 / 1000) := by
  have h17 := round1_nat_panel (panelCountOf r)
  constructor
  · simp [runSolarDetection, pvAreaOf, avgPanelArea]
  · have h17q : round1 ((panelCountOf r : ℚ) * (17/10)) =
        (panelCountOf r : ℚ) * (17/10) := by
      simpa [avgPanelArea] using h17
    simp only [runSolarDetection, capacityOf, pvAreaOf, avgPanelArea,
      wattPerSqm, h17q]

/-- C1 counterexample: a valid invocation whose unrounded confidence is
0.854 reports confidence 0.85 while its qc notes are those of the
greater-than-0.85 bucket, so the reported confidence and the bucket do
disagree. -/
theorem confidence_bucket_disagreement :
    rCex.Valid ∧
    (runSolarDetection "S1" 0 0 "2026-01-01" rCex).confidence = 85/100 ∧
    (runSolarDetection "S1" 0 0 "2026-01-01" rCex).qc_notes =
      ["clear roof view", "distinct module grid detected",
        "mounting shadows visible"] := by
  refine ⟨rCex_valid, ?_, ?_⟩
  · norm_num [runSolarDetection, confidenceOf, hasSolarOf, round2, jsRound,
      rCex, rHalf]
  · norm_num [runSolarDetection, qcNotesOf, qcEval, confidenceOf, hasSolarOf,
      panelCountOf, jsFloor, rCex, rHalf]

/-- C1 amended: the qc bucket is computed from the unrounded confidence;
bucketing the rounded confidence agrees with it whenever the unrounded
value does not lie in the half-open sliver just above a threshold, namely
(0.85, 0.855), (0.70, 0.705) or (0.50, 0.505). -/
theorem qcEval_round2_agreement (c t : ℚ)
    (h85 : ¬(85/100 < c ∧ c < 855/1000))
    (h70 : ¬(70/100 < c ∧ c < 705/1000))
    (h50 : ¬(50/100 < c ∧ c < 505/1000)) :
    qcEval (round2 c) t = qcEval c t := by
  have h1 : (85/100 < round2 c) ↔ (85/100 < c) := by
    have e : (85/100 : ℚ) = ((85 : ℤ) : ℚ)/100 := by norm_num
    rw [e]
    refine round2_lt_iff c 85 ?_
    intro hh
    refine h85 ⟨?_, ?_⟩
    · have := hh.1; push_cast at this; linarith
    · have := hh.2; push_cast at this; linarith
  have h2 : (70/100 < round2 c) ↔ (70/100 < c) := by
    have e : (70/100 : ℚ) = ((70 : ℤ) : ℚ)/100 := by norm_num
    rw [e]
    refine round2_lt_iff c 70 ?_
    intro hh
    refine h70 ⟨?_, ?_⟩
    · have := hh.1; push_cast at this; linarith
    · have := hh.2; push_cast at this; linarith
  have h3 : (50/100 < round2 c) ↔ (50/100 < c) := by
    have e : (50/100 : ℚ) = ((50 : ℤ) : ℚ)/100 := by norm_num
    rw [e]
    refine round2_lt_iff c 50 ?_
    intro hh
    refine h50 ⟨?_, ?_⟩
    · have := hh.1; push_cast at this; linarith
    · have := hh.2; push_cast at this; linarith
  simp only [qcEval, gt_iff_lt, h1, h2, h3]

/-- C1 amended witness: at confidence 0.9 the rounded and unrounded
values select the same bucket. -/
theorem qcEval_round2_agreement_witness :
    (¬(85/100 < (9/10 : ℚ) ∧ (9/10 : ℚ) < 855/1000) ∧
     ¬(70/100 < (9/10 : ℚ) ∧ (9/10 : ℚ) < 705/1000) ∧
     ¬(50/100 < (9/10 : ℚ) ∧ (9/10 : ℚ) < 505/1000)) ∧
    qcEval (round2 (9/10)) 0 = qcEval (9/10) 0 := by
  have a : ¬(85/100 < (9/10 : ℚ) ∧ (9/10 : ℚ) < 855/1000) := by norm_num
  have b : ¬(70/100 < (9/10 : ℚ) ∧ (9/10 : ℚ) < 705/1000) := by norm_num
  have c : ¬(50/100 < (9/10 : ℚ) ∧ (9/10 : ℚ) < 505/1000) := by norm_num
  exact ⟨⟨a, b, c⟩, qcEval_round2_agreement (9/10) 0 a b c⟩

/-- C4: with a valid panel draw, when has_solar holds the bbox string
holds exactly panel_count_est semicolon-separated entries, and when it
does not hold the bbox string is empty with zero entries. -/
theorem bbox_entry_count (sampleId : String) (lat lon : ℚ) (today : String)
    (r : Rand) (h0 : 0 ≤ r.panels) (h1 : r.panels < 1) :
    ((runSolarDetection sampleId lat lon today r).has_solar = true →
      countEntries (runSolarDetection sampleId lat lon today r).bbox_or_mask =
        (runSolarDetection sampleId lat lon today r).panel_count_est) ∧
    ((runSolarDetection sampleId lat lon today r).has_solar = false →
      (runSolarDetection sampleId lat lon today r).bbox_or_mask = "" ∧
      countEntries (runSolarDetection sampleId lat lon today r).bbox_or_mask = 0) := by
  constructor
  · intro hs
    have hs2 : hasSolarOf r = true := hs
    have hb := panelCount_bounds r.panels h0 h1
    have hpc : 1 ≤ panelCountOf r := by
      unfold panelCountOf
      simp only [hs2, if_true]
      omega
    simp only [runSolarDetection, hs2, if_true]
    exact countEntries_bbox (panelCountOf r) r hpc
  · intro hs
    have hs2 : hasSolarOf r = false := hs
    constructor
    · simp [runSolarDetection, hs2]
    · simp [runSolarDetection, hs2, countEntries]

/-- C4 witness: the all-halves draw stream detects solar with fourteen
panels and fourteen box entries. -/
theorem bbox_entry_count_witness :
    (0 ≤ rHalf.panels ∧ rHalf.panels < 1) ∧
    (((runSolarDetection "S1" 0 0 "2026-01-01" rHalf).has_solar = true →
      countEntries (runSolarDetection "S1" 0 0 "2026-01-01" rHalf).bbox_or_mask =
        (runSolarDetection "S1" 0 0 "2026-01-01" rHalf).panel_count_est) ∧
    ((runSolarDetection "S1" 0 0 "2026-01-01" rHalf).has_solar = false →
      (runSolarDetection "S1" 0 0 "2026-01-01" rHalf).bbox_or_mask = "" ∧
      countEntries (runSolarDetection "S1" 0 0 "2026-01-01" rHalf).bbox_or_mask = 0)) :=
  ⟨⟨by norm_num [rHalf], by norm_num [rHalf]⟩,
    bbox_entry_count "S1" 0 0 "2026-01-01" rHalf
      (by norm_num [rHalf]) (by norm_num [rHalf])⟩

/-- C6: under valid draws, every synthesized box has nonnegative floored
x, y, width and height, and every serialized box string of a panel count
in [4, 23] matches the bracketed comma-separated grammar with digit-only
integer fields and a digits-dot-digits confidence field. -/
theorem bbox_grammar_valid (r : Rand) (n : ℕ) (hr : r.Valid)
    (h4 : 4 ≤ n) (h23 : n ≤ 23) :
    (∀ k row col, 0 ≤ (mkBox r k row col).x ∧ 0 ≤ (mkBox r k row col).y ∧
      0 ≤ (mkBox r k row col).w ∧ 0 ≤ (mkBox r k row col).h) ∧
    (∀ s ∈ generateMockBboxList n r, MatchesBoxGrammar s) :=
  ⟨fun k row col => mkBox_nonneg r hr k row col,
   generateMockBboxList_grammar r hr n⟩

/-- C6 witness: the all-halves draw stream with four panels satisfies the
nonnegativity and grammar conclusions. -/
theorem bbox_grammar_valid_witness :
    (rHalf.Valid ∧ 4 ≤ 4 ∧ 4 ≤ 23) ∧
    ((∀ k row col, 0 ≤ (mkBox rHalf k row col).x ∧
        0 ≤ (mkBox rHalf k row col).y ∧ 0 ≤ (mkBox rHalf k row col).w ∧
        0 ≤ (mkBox rHalf k row col).h) ∧
    (∀ s ∈ generateMockBboxList 4 rHalf, MatchesBoxGrammar s)) :=
  ⟨⟨rHalf_valid, by norm_num, by norm_num⟩,
    bbox_grammar_valid rHalf 4 rHalf_valid (by norm_num) (by norm_num)⟩



end SolarVerify
